import Mathlib

/-!
Verification of the `webots_basic` robot-car controllers.

Shallow embedding of the navigation/control core of `robot_car_auto_02.py`
(lane-following with PID steering, LIDAR obstacle scanning, potential-field
mixing, steering clamp) and of the heading-update step of `robot_car_01.py`.

Modelling conventions:
* Python floats are modelled as exact rationals (`ℚ`) wherever the program only
  performs field arithmetic and comparisons; quantities that pass through
  `math.sin`, `math.atan2` or the lidar/camera field of view are real numbers.
* Fallible routines that return the `UNKNOWN` sentinel (`99999.99`) are
  modelled with `Option`: `none` is "not found".
* Mutable attributes (`self.integral`, `self.prev_error`, the repulsive-memory
  pair of `run2`, and `prev_x`, `prev_y`, `car_angle` of `robot_car_01.py`)
  become explicit state records threaded through the step functions.
-/

namespace RobotCar

/-! CommandShaper: `control` (robot_car_auto_02.py, lines 124-135) clamps the
requested steering angle to `±LIMIT_ANGLE = ±0.5` rad and sends the result to
the actuator; we model the value sent. -/

noncomputable def control (steering_angle : ℝ) : ℝ :=
  if steering_angle > 0.5 then 0.5
  else if steering_angle < -0.5 then -0.5
  else steering_angle

/-! Smoothing stage: `maFilter` (lines 104-117) appends `new_value` to
`self.history`, pops the oldest entry when the history exceeds `N = 5`,
computes the average of the remaining history — and then returns `new_value`,
discarding the average.  We return the pair (returned value, new history). -/

def maFilter (history : List ℚ) (new_value : ℚ) : ℚ × List ℚ :=
  let history1 := history ++ [new_value]
  let history2 := if history1.length > 5 then history1.tail else history1
  let _average := history2.sum / (history2.length : ℚ)
  (new_value, history2)

/-! LaneDetector + PidSteering: `colorDiff` and `calcSteeringAngle`
(lines 141-233).  A pixel is a BGR channel triple of naturals; an image maps
(row, column) to a pixel.  The scan region is rows `int(h/3) … h-1`. -/

def colorDiff (pixel target : ℕ × ℕ × ℕ) : ℚ :=
  ((|(pixel.1 : ℤ) - (target.1 : ℤ)| + |(pixel.2.1 : ℤ) - (target.2.1 : ℤ)|
      + |(pixel.2.2 : ℤ) - (target.2.2 : ℤ)| : ℤ) : ℚ) / 3

def YELLOW : ℕ × ℕ × ℕ := (95, 187, 203)

/-- The (row, column) pairs visited by the two nested scan loops of
`calcSteeringAngle`: rows `int(h/3) ≤ y < h`, columns `0 ≤ x < w`. -/
def scanRegion (h w : ℕ) : List (ℕ × ℕ) :=
  (List.range' (h / 3) (h - h / 3)).flatMap fun y =>
    (List.range w).map fun x => (y, x)

/-- The scanned pixels whose colour difference to `YELLOW` is below 30. -/
def lanePixels (h w : ℕ) (img : ℕ → ℕ → ℕ × ℕ × ℕ) : List (ℕ × ℕ) :=
  (scanRegion h w).filter fun p => colorDiff (img p.1 p.2) YELLOW < 30

/-- Accumulator `pixel_count` after the scan loops. -/
def lanePixelCount (h w : ℕ) (img : ℕ → ℕ → ℕ × ℕ × ℕ) : ℕ :=
  (lanePixels h w img).length

/-- Accumulator `sumx` after the scan loops: sum of the matching columns. -/
def laneSumx (h w : ℕ) (img : ℕ → ℕ → ℕ × ℕ × ℕ) : ℕ :=
  ((lanePixels h w img).map Prod.snd).sum

/-- The normalised centroid `y_ave = float(sumx) / (pixel_count * camera_width)`. -/
def laneOffset (h w : ℕ) (img : ℕ → ℕ → ℕ × ℕ × ℕ) : ℚ :=
  (laneSumx h w img : ℚ) / ((lanePixelCount h w img : ℚ) * (w : ℚ))

/-- The PID state attributes `self.integral` and `self.prev_error`. -/
structure PidState where
  integral : ℚ
  prev_error : ℚ
deriving DecidableEq

/-- Function `calcSteeringAngle`: scans the image; with no matching pixel it
returns the not-found sentinel (modelled `none`) and leaves the PID state
untouched; otherwise it runs the PID update and returns the steering angle
together with the updated state. -/
def calcSteeringAngle (h w : ℕ) (fov : ℚ) (st : PidState)
    (img : ℕ → ℕ → ℕ × ℕ × ℕ) : Option ℚ × PidState :=
  if lanePixelCount h w img = 0 then (none, st)
  else
    let TARGET_POS : ℚ := 0.25
    let y_ave : ℚ := laneOffset h w img
    let error : ℚ := y_ave - TARGET_POS
    let integral : ℚ := st.integral + error
    let diff_error : ℚ := error - st.prev_error
    let Kd : ℚ := 2.0
    let Ki : ℚ := 0.01
    let steer_angle : ℚ := (y_ave - TARGET_POS) * fov + Ki * integral + Kd * diff_error
    (some steer_angle, ⟨integral, error⟩)

/-! ObstacleScanner: `calcObstacleAngleDist` (lines 238-308).  A range scan is
a map from ray index to measured distance.  The loop visits indices
`int(W/2 - 20) ≤ i < int(W/2 + 20)` (for the actual device `W = 180`: indices
70…109) and accumulates `sumx`, `collision_count` and `obstacle_dist` over the
rays with `dist < OBSTACLE_DIST_MAX = 20`.  We express the three accumulators
as folds over the filtered index list. -/

def CAR_WIDTH : ℝ := 2.015

/-- The ray indices visited by the scan loop. -/
def obstacleScanIdxs (W : ℕ) : List ℕ :=
  List.range' (W / 2 - 20) ((W / 2 + 20) - (W / 2 - 20))

/-- The visited rays whose distance is below `OBSTACLE_DIST_MAX = 20`. -/
def obstacleHits (W : ℕ) (d : ℕ → ℚ) : List ℕ :=
  (obstacleScanIdxs W).filter fun i => d i < 20

/-- Accumulator `collision_count` after the loop. -/
def collisionCount (W : ℕ) (d : ℕ → ℚ) : ℕ := (obstacleHits W d).length

/-- Accumulator `sumx` after the loop. -/
def obstacleSumx (W : ℕ) (d : ℕ → ℚ) : ℕ := (obstacleHits W d).sum

/-- Accumulator `obstacle_dist` after the loop (the accumulated distance sum). -/
def obstacleDistSum (W : ℕ) (d : ℕ → ℚ) : ℚ := ((obstacleHits W d).map d).sum

/-- The bearing
`obstacle_angle = (float(sumx)/collision_count / lidar_width - 0.5) * lidar_fov`. -/
noncomputable def obstacleAngle (W : ℕ) (fov : ℝ) (d : ℕ → ℚ) : ℝ :=
  ((((obstacleSumx W d : ℚ) / (collisionCount W d : ℚ) / (W : ℚ) : ℚ) : ℝ) - 0.5) * fov

/-- The reassigned `obstacle_dist = obstacle_dist / collision_count`. -/
def obstacleMeanDist (W : ℕ) (d : ℕ → ℚ) : ℚ :=
  obstacleDistSum W d / (collisionCount W d : ℚ)

/-- Function `calcObstacleAngleDist`: the paired `UNKNOWN, UNKNOWN` returns
are modelled as `none`, a found obstacle as `some (angle, dist)`. -/
noncomputable def calcObstacleAngleDist (W : ℕ) (fov : ℝ) (d : ℕ → ℚ) :
    Option (ℝ × ℚ) :=
  if collisionCount W d = 0 ∨ obstacleDistSum W d > (collisionCount W d : ℚ) * 20 then
    none
  else if |(obstacleMeanDist W d : ℝ) * Real.sin (obstacleAngle W fov d)| <
      0.5 * CAR_WIDTH + 0.1 then
    some (obstacleAngle W fov d, obstacleMeanDist W d)
  else
    none

/-- Claim-side restatement of the scanner (spec §4.5, claim C2's wording):
accumulate the indices in `[W/2 − H, W/2 + H)` whose distance is `< D`
(`H = 20`, `D = 20`); return not-found when the count is 0 or the *mean*
accumulated distance exceeds `D`; otherwise return
`bearing = (meanIndex/W − 0.5)·F` and the mean distance, but only when
`|meanDistance · sin bearing| < 0.5·CAR_WIDTH + 0.1`. -/
noncomputable def obstacleScannerClaim (W : ℕ) (F : ℝ) (d : ℕ → ℚ) :
    Option (ℝ × ℚ) :=
  let hits := (List.range' (W / 2 - 20) ((W / 2 + 20) - (W / 2 - 20))).filter
    fun i => d i < 20
  let count := hits.length
  let meanDistance : ℚ := (hits.map d).sum / (count : ℚ)
  if count = 0 ∨ 20 < meanDistance then none
  else
    let meanIndex : ℚ := (hits.map (fun (i : ℕ) => (i : ℚ))).sum / (count : ℚ)
    let bearing : ℝ := ((meanIndex : ℝ) / (W : ℝ) - 0.5) * F
    if |(meanDistance : ℝ) * Real.sin bearing| < 0.5 * CAR_WIDTH + 0.1 then
      some (bearing, meanDistance)
    else none

/-! PotentialFieldMixer: the repulsive-term block of `run2` (lines 431-455).
Mutable loop state: `memory_timer` and `repulsive_memory`.  The Python
variable `repulsive_memory` is only ever read when `memory_timer > 0`, which
only happens after it has been written; its initial value is irrelevant, so
the record carries a plain rational. -/

structure RepState where
  memory_timer : ℕ
  repulsive_memory : ℚ
deriving DecidableEq

/-- One tick of the repulsive-term computation of `run2`: given the state and
the tick's obstacle observation (`none` means `UNKNOWN`), return the tick's
`repulsive_steer` and the updated state. -/
noncomputable def repulsiveStep (st : RepState) (obs : Option (ℝ × ℚ)) :
    ℚ × RepState :=
  match obs with
  | some (obstacle_angle, obstacle_dist) =>
    if obstacle_dist < 10 then
      let direction : ℚ := if 0 ≤ obstacle_angle then -0.5 else 0.5
      let safe_dist : ℚ := max obstacle_dist 0.1
      let repulsive_steer : ℚ := direction * 3.0 * (1 / safe_dist)
      (repulsive_steer, ⟨50, repulsive_steer⟩)
    else if 0 < st.memory_timer then
      (st.repulsive_memory, ⟨st.memory_timer - 1, st.repulsive_memory⟩)
    else (0, st)
  | none =>
    if 0 < st.memory_timer then
      (st.repulsive_memory, ⟨st.memory_timer - 1, st.repulsive_memory⟩)
    else (0, st)

/-- The state after `k` further ticks in which no obstacle is observed. -/
noncomputable def runNone : RepState → ℕ → RepState
  | st, 0 => st
  | st, k + 1 => runNone (repulsiveStep st none).2 k

/-- The repulsive term emitted on the `(k+1)`-st tick of an observation-free
stretch starting from state `st`. -/
noncomputable def outNone (st : RepState) (k : ℕ) : ℚ :=
  (repulsiveStep (runNone st k) none).1

/-! HeadingEstimator: the heading update of `robot_car_01.py` (lines 36-40). -/

structure HeadingState where
  prev_x : ℚ
  prev_y : ℚ
  car_angle : ℝ

/-- Two-argument arctangent `math.atan2 y x`: the argument of the complex
number `x + y·i`, in `(−π, π]`. -/
noncomputable def atan2 (y x : ℝ) : ℝ := Complex.arg ⟨x, y⟩

/-- The per-tick heading update: when `|x1 - prev_x| > 0.01` the heading is
recomputed from the displacement and the reference position is replaced;
otherwise the state is untouched. -/
noncomputable def headingUpdate (st : HeadingState) (x1 y1 : ℚ) : HeadingState :=
  if |x1 - st.prev_x| > 0.01 then
    ⟨x1, y1, atan2 ((y1 : ℝ) - (st.prev_y : ℝ)) ((x1 : ℝ) - (st.prev_x : ℝ))⟩
  else st

/-! Concrete witness inputs. -/

/-- Witness image for the lane-found scenario: height 3, width 4; the single
matching pixel sits at row 1, column 1, so the centroid lands exactly on the
target fraction `0.25`.  The background colour differs from `YELLOW` by a mean
channel difference of exactly 30, which the strict `< 30` test rejects. -/
def witnessImg : ℕ → ℕ → ℕ × ℕ × ℕ :=
  fun y x => if y = 1 ∧ x = 1 then (95, 187, 203) else (95, 187, 113)

/-- Witness image with no matching pixel at all. -/
def witnessImgNone : ℕ → ℕ → ℕ × ℕ × ℕ := fun _ _ => (95, 187, 113)

/-! Helper lemmas. -/

/-- Live-branch behaviour of the repulsive step. -/
lemma repulsiveStep_live_eq (st : RepState) (obstacle_angle : ℝ) (obstacle_dist : ℚ)
    (h : obstacle_dist < 10) :
    repulsiveStep st (some (obstacle_angle, obstacle_dist)) =
      ((if 0 ≤ obstacle_angle then (-0.5 : ℚ) else 0.5) * 3.0 * (1 / max obstacle_dist 0.1),
        ⟨50, (if 0 ≤ obstacle_angle then (-0.5 : ℚ) else 0.5) * 3.0
          * (1 / max obstacle_dist 0.1)⟩) := by
  simp only [repulsiveStep]
  rw [if_pos h]

/-- Observation-free behaviour of the repulsive step. -/
lemma repulsiveStep_none_eq (t : ℕ) (v : ℚ) :
    repulsiveStep ⟨t, v⟩ none = (if 0 < t then v else 0, ⟨t - 1, v⟩) := by
  simp only [repulsiveStep]
  split_ifs with h
  · rfl
  · have ht : t = 0 := by omega
    subst ht; rfl

/-- The timer decreases one-for-one along an observation-free stretch. -/
lemma runNone_eq (t k : ℕ) (v : ℚ) : runNone ⟨t, v⟩ k = ⟨t - k, v⟩ := by
  induction k generalizing t with
  | zero => rfl
  | succ k ih =>
    show runNone (repulsiveStep ⟨t, v⟩ none).2 k = _
    rw [repulsiveStep_none_eq]
    show runNone ⟨t - 1, v⟩ k = _
    rw [ih]
    congr 1
    omega

/-- Closed form of the repulsive output along an observation-free stretch. -/
lemma outNone_eq (t k : ℕ) (v : ℚ) : outNone ⟨t, v⟩ k = if k < t then v else 0 := by
  rw [outNone, runNone_eq, repulsiveStep_none_eq]
  by_cases h : k < t
  · rw [if_pos (by omega : 0 < t - k), if_pos h]
  · rw [if_neg (by omega : ¬ 0 < t - k), if_neg h]

/-- The scan region of a 3-row, 4-column image. -/
lemma scanRegion_3_4 :
    scanRegion 3 4 = [(1,0),(1,1),(1,2),(1,3),(2,0),(2,1),(2,2),(2,3)] := by decide

/-- Exactly one pixel of `witnessImg` matches. -/
lemma lanePixels_witnessImg : lanePixels 3 4 witnessImg = [(1, 1)] := by
  rw [lanePixels, scanRegion_3_4]
  norm_num [witnessImg, colorDiff, YELLOW, List.filter]

/-- A nonempty list of rationals all below 20 sums to less than 20 times its
length. -/
lemma list_sum_lt_of_forall_lt (l : List ℚ) (hne : l ≠ []) (h : ∀ x ∈ l, x < 20) :
    l.sum < 20 * l.length := by
  induction l with
  | nil => simp at hne
  | cons a t ih =>
    rcases eq_or_ne t [] with ht | ht
    · subst ht
      simpa using h a (by simp)
    · have h1 := ih ht (fun x hx => h x (List.mem_cons_of_mem _ hx))
      have h2 := h a (List.mem_cons_self a t)
      simp only [List.sum_cons, List.length_cons]
      push_cast
      linarith

/-- Every accumulated sample is below `OBSTACLE_DIST_MAX`, so the accumulated
distance sum is strictly below `collision_count * 20` whenever anything was
accumulated. -/
lemma obstacleDistSum_lt (W : ℕ) (d : ℕ → ℚ) (h0 : collisionCount W d ≠ 0) :
    obstacleDistSum W d < (collisionCount W d : ℚ) * 20 := by
  have hmem : ∀ x ∈ (obstacleHits W d).map d, x < 20 := by
    intro x hx
    rcases List.mem_map.mp hx with ⟨i, hi, rfl⟩
    exact of_decide_eq_true (List.mem_filter.mp hi).2
  have hne : (obstacleHits W d).map d ≠ [] := by
    intro hnil
    apply h0
    rw [collisionCount, ← List.length_map (f := d), hnil]
    rfl
  have := list_sum_lt_of_forall_lt _ hne hmem
  rw [List.length_map] at this
  rw [obstacleDistSum, collisionCount]
  linarith [this]

/-- With every ray at 3 m, all 40 window rays are accumulated. -/
lemma obstacleHits_all3 : obstacleHits 180 (fun _ => (3 : ℚ)) = List.range' 70 40 := by
  decide

lemma collisionCount_all3 : collisionCount 180 (fun _ => (3 : ℚ)) = 40 := by decide

lemma obstacleSumx_all3 : obstacleSumx 180 (fun _ => (3 : ℚ)) = 3580 := by decide

lemma obstacleDistSum_all3 : obstacleDistSum 180 (fun _ => (3 : ℚ)) = 120 := by
  rw [obstacleDistSum, obstacleHits_all3, List.map_const', List.sum_replicate]
  simp [nsmul_eq_mul]
  norm_num

lemma obstacleMeanDist_all3 : obstacleMeanDist 180 (fun _ => (3 : ℚ)) = 3 := by
  rw [obstacleMeanDist, obstacleDistSum_all3, collisionCount_all3]
  norm_num

/-- The mean ray index of the window `[70, 110)` is `89.5`, not the scan
midline `90`, so the computed bearing is `-π/360` rather than `0`. -/
lemma obstacleAngle_all3 :
    obstacleAngle 180 Real.pi (fun _ => (3 : ℚ)) = -(Real.pi / 360) := by
  rw [obstacleAngle, obstacleSumx_all3, collisionCount_all3]
  have hq : ((3580 : ℕ) : ℚ) / ((40 : ℕ) : ℚ) / ((180 : ℕ) : ℚ) = 179 / 360 := by
    norm_num
  rw [hq]
  push_cast
  have h1 : (179 : ℝ) / 360 - 0.5 = -(1 / 360) := by norm_num
  rw [h1]
  ring

/-- Full evaluation of the scanner on the all-3 m scan. -/
lemma calcObstacle_all3_eval :
    calcObstacleAngleDist 180 Real.pi (fun _ => (3 : ℚ)) = some (-(Real.pi / 360), 3) := by
  rw [calcObstacleAngleDist, if_neg ?hc1, if_pos ?hc2, obstacleAngle_all3,
    obstacleMeanDist_all3]
  case hc1 =>
    rw [collisionCount_all3, obstacleDistSum_all3]
    rintro (h | h)
    · exact absurd h (by norm_num)
    · rw [gt_iff_lt] at h
      norm_num at h
  case hc2 =>
    rw [obstacleAngle_all3, obstacleMeanDist_all3, CAR_WIDTH]
    have h0 : (0 : ℝ) ≤ Real.pi / 360 := by positivity
    have h1 : |Real.sin (Real.pi / 360)| ≤ Real.pi / 360 := by
      have h := @Real.abs_sin_le_abs (Real.pi / 360)
      rwa [abs_of_nonneg h0] at h
    have h3 : Real.pi < 4 := Real.pi_lt_four
    have h4 : |((3 : ℚ) : ℝ) * Real.sin (-(Real.pi / 360))| =
        3 * |Real.sin (Real.pi / 360)| := by
      rw [Real.sin_neg, mul_neg, abs_neg, abs_mul]
      norm_num
    rw [h4]
    linarith

/-! Claim theorems. -/

/-- C1: for every combined steering input `x`, `control` sends an angle in
`[-0.5, 0.5]` radians to the actuator, and sends exactly `x` when
`|x| ≤ 0.5`. -/
theorem control_within_limit (x : ℝ) :
    (-0.5 ≤ control x ∧ control x ≤ 0.5) ∧ (|x| ≤ 0.5 → control x = x) := by
  unfold control
  constructor
  · split_ifs with h1 h2
    · norm_num
    · norm_num
    · constructor <;> linarith
  · intro hx
    rw [abs_le] at hx
    split_ifs with h1 h2
    · linarith
    · linarith
    · rfl

/-- C1 witness: `control` at the in-range input `0.3`. -/
theorem control_within_limit_witness :
    |(0.3 : ℝ)| ≤ 0.5 ∧ control 0.3 = 0.3 ∧ -0.5 ≤ control 0.3 ∧ control 0.3 ≤ 0.5 := by
  have h : |(0.3 : ℝ)| ≤ 0.5 := by rw [abs_of_nonneg] <;> norm_num
  exact ⟨h, (control_within_limit 0.3).2 h, (control_within_limit 0.3).1.1,
    (control_within_limit 0.3).1.2⟩

/-- C2: `calcObstacleAngleDist` behaves exactly as claimed — it accumulates
the in-window rays with distance `< 20`, returns not-found when the count is 0
or the mean accumulated distance exceeds 20, and otherwise returns the bearing
`(meanIndex/W - 0.5)·F` and the mean distance exactly when the collision test
`|meanDistance·sin bearing| < 0.5·CAR_WIDTH + 0.1` holds. -/
theorem calcObstacleAngleDist_matches_claim (W : ℕ) (F : ℝ) (d : ℕ → ℚ) :
    calcObstacleAngleDist W F d = obstacleScannerClaim W F d := by
  have hidx : ((obstacleHits W d).map (fun (i : ℕ) => (i : ℚ))).sum
      = ((obstacleHits W d).sum : ℚ) :=
    (Nat.cast_list_sum (obstacleHits W d)).symm
  simp only [obstacleScannerClaim]
  rw [show ((List.range' (W / 2 - 20) ((W / 2 + 20) - (W / 2 - 20))).filter
      fun i => d i < 20) = obstacleHits W d from rfl]
  rw [show (obstacleHits W d).length = collisionCount W d from rfl]
  rw [show ((obstacleHits W d).map d).sum = obstacleDistSum W d from rfl]
  rw [hidx]
  rw [show ((obstacleHits W d).sum : ℚ) = (obstacleSumx W d : ℚ) from rfl]
  rcases eq_or_ne (collisionCount W d) 0 with h0 | h0
  · rw [calcObstacleAngleDist, if_pos (Or.inl h0), if_pos (Or.inl h0)]
  · have hc : (0 : ℚ) < (collisionCount W d : ℚ) := by
      exact_mod_cast Nat.pos_of_ne_zero h0
    have hcond : (collisionCount W d = 0 ∨
        obstacleDistSum W d > (collisionCount W d : ℚ) * 20) ↔
        (collisionCount W d = 0 ∨ 20 < obstacleMeanDist W d) := by
      apply or_congr_right
      rw [show obstacleMeanDist W d = obstacleDistSum W d / (collisionCount W d : ℚ) from rfl]
      rw [gt_iff_lt, lt_div_iff₀ hc, mul_comm]
    have hbear : (((obstacleSumx W d : ℚ) / (collisionCount W d : ℚ) : ℚ) : ℝ) / (W : ℝ)
        - 0.5 = (((obstacleSumx W d : ℚ) / (collisionCount W d : ℚ) / (W : ℚ) : ℚ) : ℝ)
        - 0.5 := by
      push_cast
      ring
    rw [hbear]
    rw [show obstacleDistSum W d / (collisionCount W d : ℚ) = obstacleMeanDist W d from rfl]
    rw [show ((((obstacleSumx W d : ℚ) / (collisionCount W d : ℚ) / (W : ℚ) : ℚ) : ℝ)
      - 0.5) * F = obstacleAngle W F d from rfl]
    rw [calcObstacleAngleDist]
    exact if_congr hcond rfl rfl

/-- C3: whenever an obstacle observation is found with distance below 10 m,
the repulsive steering term is `direction × 3.0 × (1/max(distance, 0.1))` with
`direction = -0.5` for bearing `≥ 0` and `+0.5` otherwise, and the repulsive
memory is snapshotted with the timer set to 50. -/
theorem repulsiveStep_live_formula (st : RepState) (obstacle_angle : ℝ)
    (obstacle_dist : ℚ) (h : obstacle_dist < 10) :
    repulsiveStep st (some (obstacle_angle, obstacle_dist)) =
      ((if 0 ≤ obstacle_angle then (-0.5 : ℚ) else 0.5) * 3.0 * (1 / max obstacle_dist 0.1),
        ⟨50, (if 0 ≤ obstacle_angle then (-0.5 : ℚ) else 0.5) * 3.0
          * (1 / max obstacle_dist 0.1)⟩) :=
  repulsiveStep_live_eq st obstacle_angle obstacle_dist h

/-- C3 witness: an obstacle at distance 2 m and bearing `+0.2` rad yields the
repulsive term `-0.75` and timer 50. -/
theorem repulsiveStep_live_formula_witness :
    (2 : ℚ) < 10 ∧
      repulsiveStep ⟨0, 0⟩ (some ((0.2 : ℝ), (2 : ℚ))) = (-(3/4 : ℚ), ⟨50, -(3/4 : ℚ)⟩) := by
  refine ⟨by norm_num, ?_⟩
  rw [repulsiveStep_live_formula ⟨0, 0⟩ 0.2 2 (by norm_num)]
  rw [if_pos (by norm_num : (0 : ℝ) ≤ 0.2)]
  rw [max_eq_left (by norm_num : (0.1 : ℚ) ≤ 2)]
  norm_num

/-- C4: the repulsive term is nonzero only within 50 ticks of a live
observation: from a never-triggered memory it is 0 on every observation-free
tick; after a live observation (whose stored value is nonzero) the stored
value is replayed on the next 50 observation-free ticks and the term is
exactly 0 on every later observation-free tick. -/
theorem repulsive_memory_window :
    (∀ (m : ℚ) (k : ℕ), outNone ⟨0, m⟩ k = 0) ∧
    (∀ (st : RepState) (angle : ℝ) (dist : ℚ), dist < 10 →
      (repulsiveStep st (some (angle, dist))).1 ≠ 0 ∧
      (∀ k : ℕ, k < 50 →
        outNone (repulsiveStep st (some (angle, dist))).2 k =
          (repulsiveStep st (some (angle, dist))).1) ∧
      (∀ k : ℕ, 50 ≤ k → outNone (repulsiveStep st (some (angle, dist))).2 k = 0)) := by
  constructor
  · intro m k
    rw [outNone_eq]
    simp
  · intro st angle dist h
    rw [repulsiveStep_live_eq st angle dist h]
    refine ⟨?_, ?_, ?_⟩
    · have hm : (0 : ℚ) < max dist 0.1 := lt_max_of_lt_right (by norm_num)
      have hb : (1 / max dist 0.1 : ℚ) ≠ 0 := ne_of_gt (div_pos one_pos hm)
      exact mul_ne_zero (mul_ne_zero (by split_ifs <;> norm_num) (by norm_num)) hb
    · intro k hk
      rw [outNone_eq, if_pos hk]
    · intro k hk
      rw [outNone_eq, if_neg (not_lt.mpr hk)]

/-- C4 witness: the window at concrete ticks — a never-triggered memory stays
0; after a live observation at distance 2 the 50th following tick still
replays the stored value and the 51st is 0. -/
theorem repulsive_memory_window_witness :
    outNone ⟨0, 5⟩ 123 = 0 ∧ (2 : ℚ) < 10 ∧
    outNone (repulsiveStep ⟨0, 0⟩ (some ((0.2 : ℝ), (2 : ℚ)))).2 49 =
      (repulsiveStep ⟨0, 0⟩ (some ((0.2 : ℝ), (2 : ℚ)))).1 ∧
    outNone (repulsiveStep ⟨0, 0⟩ (some ((0.2 : ℝ), (2 : ℚ)))).2 50 = 0 := by
  refine ⟨repulsive_memory_window.1 5 123, by norm_num, ?_, ?_⟩
  · exact (repulsive_memory_window.2 ⟨0, 0⟩ 0.2 2 (by norm_num)).2.1 49 (by norm_num)
  · exact (repulsive_memory_window.2 ⟨0, 0⟩ 0.2 2 (by norm_num)).2.2 50 (by norm_num)

/-- C5: on a lane-found tick with normalised offset `y`, `calcSteeringAngle`
returns `(y - 0.25)·fov + 0.01·(integral + (y - 0.25)) + 2·((y - 0.25)
- prevError)` and stores the new integral and `prevError = y - 0.25`. -/
theorem calcSteeringAngle_pid_update (h w : ℕ) (fov : ℚ) (st : PidState)
    (img : ℕ → ℕ → ℕ × ℕ × ℕ) (hfound : lanePixelCount h w img ≠ 0) :
    calcSteeringAngle h w fov st img =
      (some ((laneOffset h w img - 0.25) * fov
        + 0.01 * (st.integral + (laneOffset h w img - 0.25))
        + 2.0 * ((laneOffset h w img - 0.25) - st.prev_error)),
       ⟨st.integral + (laneOffset h w img - 0.25), laneOffset h w img - 0.25⟩) := by
  rw [calcSteeringAngle, if_neg hfound]

/-- C5 witness: offset exactly `0.25` with zero integral/prevError history
gives PID output 0. -/
theorem calcSteeringAngle_pid_update_witness :
    lanePixelCount 3 4 witnessImg ≠ 0 ∧
      calcSteeringAngle 3 4 1 ⟨0, 0⟩ witnessImg = (some 0, ⟨0, 0⟩) := by
  have hcount : lanePixelCount 3 4 witnessImg = 1 := by
    rw [lanePixelCount, lanePixels_witnessImg]
    rfl
  have hne : lanePixelCount 3 4 witnessImg ≠ 0 := by rw [hcount]; norm_num
  have hoff : laneOffset 3 4 witnessImg = 1/4 := by
    rw [laneOffset, laneSumx, lanePixels_witnessImg, hcount]
    norm_num
  refine ⟨hne, ?_⟩
  rw [calcSteeringAngle_pid_update 3 4 1 ⟨0, 0⟩ witnessImg hne, hoff]
  norm_num

/-- C6: when no pixel matches (count 0), `calcSteeringAngle` returns the
not-found sentinel and leaves the PID state exactly unchanged. -/
theorem calcSteeringAngle_notfound_keeps_state (h w : ℕ) (fov : ℚ) (st : PidState)
    (img : ℕ → ℕ → ℕ × ℕ × ℕ) (h0 : lanePixelCount h w img = 0) :
    calcSteeringAngle h w fov st img = (none, st) := by
  rw [calcSteeringAngle, if_pos h0]

/-- C6 witness: an image with no matching pixel leaves the state `⟨5, 7⟩`
untouched. -/
theorem calcSteeringAngle_notfound_keeps_state_witness :
    lanePixelCount 3 4 witnessImgNone = 0 ∧
      calcSteeringAngle 3 4 1 ⟨5, 7⟩ witnessImgNone = (none, ⟨5, 7⟩) := by
  have h0 : lanePixelCount 3 4 witnessImgNone = 0 := by
    rw [lanePixelCount, lanePixels, scanRegion_3_4]
    norm_num [witnessImgNone, colorDiff, YELLOW, List.filter]
  exact ⟨h0, calcSteeringAngle_notfound_keeps_state 3 4 1 ⟨5, 7⟩ witnessImgNone h0⟩

/-- C7: `maFilter` returns its input value unchanged for every input and every
history state — the computed average is discarded. -/
theorem maFilter_returns_input (history : List ℚ) (new_value : ℚ) :
    (maFilter history new_value).1 = new_value := rfl

/-- C8 counterexample: on the all-3 m scan (W = 180, F = π) the scanner does
not return bearing 0 and distance 3 — the mean window index is 89.5, not 90,
so the bearing is `-π/360 ≠ 0`. -/
theorem obstacle_all3_not_bearing_zero :
    calcObstacleAngleDist 180 Real.pi (fun _ => (3 : ℚ)) ≠ some (0, 3) := by
  rw [calcObstacle_all3_eval]
  intro h
  rw [Option.some.injEq, Prod.mk.injEq] at h
  have h1 : -(Real.pi / 360) = 0 := h.1
  rw [neg_eq_zero, div_eq_zero_iff] at h1
  rcases h1 with h1 | h1
  · exact Real.pi_ne_zero h1
  · norm_num at h1

/-- C8 (amended): on the all-3 m scan (W = 180, F = π) the scanner returns
found with bearing `-π/360` (the window `[70, 110)` has mean index 89.5) and
distance 3; the collision test holds since `|3·sin(-π/360)| < 0.5·CAR_WIDTH
+ 0.1`. -/
theorem obstacle_all3_found :
    calcObstacleAngleDist 180 Real.pi (fun _ => (3 : ℚ)) = some (-(Real.pi / 360), 3) :=
  calcObstacle_all3_eval

/-- C9: when `|Δx| ≤ 0.01` the heading update leaves both the stored heading
and the stored reference position unchanged; when `|Δx| > 0.01` it recomputes
the heading as `atan2 Δy Δx` and replaces the reference position. -/
theorem headingUpdate_threshold (st : HeadingState) (x1 y1 : ℚ) :
    (|x1 - st.prev_x| ≤ 0.01 → headingUpdate st x1 y1 = st) ∧
    (|x1 - st.prev_x| > 0.01 → headingUpdate st x1 y1 =
      ⟨x1, y1, atan2 ((y1 : ℝ) - (st.prev_y : ℝ)) ((x1 : ℝ) - (st.prev_x : ℝ))⟩) := by
  constructor
  · intro h; rw [headingUpdate, if_neg (not_lt.mpr h)]
  · intro h; rw [headingUpdate, if_pos h]

/-- C9 witness: a 5 mm move leaves the state `⟨0, 0, 0⟩` unchanged. -/
theorem headingUpdate_threshold_witness :
    |(1/200 : ℚ) - (HeadingState.mk 0 0 0).prev_x| ≤ 0.01 ∧
      headingUpdate ⟨0, 0, 0⟩ (1/200) 3 = ⟨0, 0, 0⟩ := by
  have h : |(1/200 : ℚ) - (HeadingState.mk 0 0 0).prev_x| ≤ 0.01 := by
    have h1 : (1/200 : ℚ) - (HeadingState.mk 0 0 0).prev_x = 1/200 := by norm_num
    rw [h1, abs_of_nonneg (by norm_num : (0 : ℚ) ≤ 1/200)]
    norm_num
  exact ⟨h, (headingUpdate_threshold ⟨0, 0, 0⟩ (1/200) 3).1 h⟩

/-- C10: with a nonzero in-window count the accumulated distance sum is
strictly below `count × 20`, so the degenerate branch never fires, and
not-found is returned exactly when the count is 0 or the collision-width test
fails. -/
theorem obstacle_notfound_characterization (W : ℕ) (F : ℝ) (d : ℕ → ℚ) :
    (collisionCount W d ≠ 0 → obstacleDistSum W d < (collisionCount W d : ℚ) * 20) ∧
    (calcObstacleAngleDist W F d = none ↔
      collisionCount W d = 0 ∨
        ¬ |(obstacleMeanDist W d : ℝ) * Real.sin (obstacleAngle W F d)| <
            0.5 * CAR_WIDTH + 0.1) := by
  refine ⟨obstacleDistSum_lt W d, ?_⟩
  rcases eq_or_ne (collisionCount W d) 0 with h0 | h0
  · rw [calcObstacleAngleDist, if_pos (Or.inl h0)]
    simp [h0]
  · have hlt := obstacleDistSum_lt W d h0
    rw [calcObstacleAngleDist, if_neg ?hc]
    case hc =>
      rintro (h | h)
      · exact h0 h
      · exact absurd h (not_lt.mpr hlt.le)
    by_cases hcol : |(obstacleMeanDist W d : ℝ) * Real.sin (obstacleAngle W F d)| <
        0.5 * CAR_WIDTH + 0.1
    · rw [if_pos hcol]
      simp [h0, hcol]
    · rw [if_neg hcol]
      simp [h0, hcol]

/-- C10 witness: an all-50 m scan gives count 0 and hence not-found, and the
all-3 m scan has its distance sum strictly below `count × 20`. -/
theorem obstacle_notfound_characterization_witness :
    calcObstacleAngleDist 180 0 (fun _ => (50 : ℚ)) = none ∧
      obstacleDistSum 180 (fun _ => (3 : ℚ)) <
        (collisionCount 180 (fun _ => (3 : ℚ)) : ℚ) * 20 := by
  constructor
  · exact (obstacle_notfound_characterization 180 0 (fun _ => 50)).2.mpr
      (Or.inl (by decide))
  · exact (obstacle_notfound_characterization 180 0 (fun _ => 3)).1 (by decide)

end RobotCar
